import Mathlib

/-!
Verification of the MyRestaurantApi hook layer and the DetailsSection form
component. The hook implementation file (`src/api/MyRestaurantApi.tsx`) is not
present in the repository snapshot; its behavior is modelled from the
specification, with every literal string (URLs, headers, toast messages)
pinned by the assertions of the in-repo test file
`src/api/__tests__/MyRestaurantApi.test.tsx`. The DetailsSection component is
embedded directly from its source file.
-/

namespace MyRestaurantApi

/-- HTTP methods used by the hook layer. -/
inductive Method where
  | GET
  | POST
  | PUT
  deriving DecidableEq, Repr

/-- A request body: absent, the FormData instance passed through by identity
(represented by an instance identifier), or a JSON string. -/
inductive Body where
  | empty
  | formData (instanceId : Nat)
  | jsonString (s : String)
  deriving DecidableEq, Repr

/-- An outgoing HTTP request as assembled by a hook. -/
structure Request where
  method : Method
  url : String
  headers : List (String × String)
  body : Body
  deriving DecidableEq, Repr

/-- Environment of one hook invocation: the configured base URL
(`VITE_API_BASE_URL`) and the token returned by the Auth0 token provider
(`getAccessTokenSilently`). -/
structure Env where
  baseUrl : String
  token : String
  deriving DecidableEq, Repr

/-- A backend response: the HTTP success flag (`ok`) and the decoded JSON
body, generic in the decoded type. -/
structure Response (α : Type) where
  ok : Bool
  body : α
  deriving DecidableEq, Repr

/-- Observable events of one hook invocation, in order of occurrence. -/
inductive Event where
  | tokenAcquired (token : String)
  | requestSent (req : Request)
  | toastSuccess (msg : String)
  | toastError (msg : String)
  deriving DecidableEq, Repr

/-- Query-cache state: the list of currently valid cache keys. -/
abbrev Cache := List String

/-- Cache key of the "my restaurant" query. -/
def myRestaurantKey : String := "fetchMyRestaurant"

/-- Look up a header value by header name in a request. -/
def headerValue (req : Request) (name : String) : Option String :=
  (req.headers.find? (fun p => p.1 == name)).map (fun p => p.2)

/-- The toast (notification) events of a trace. -/
def toastEvents (t : List Event) : List Event :=
  t.filter fun e =>
    match e with
    | Event.toastSuccess _ => true
    | Event.toastError _ => true
    | _ => false

/-- The requests sent during a trace. -/
def requestsOf (t : List Event) : List Request :=
  t.filterMap fun e =>
    match e with
    | Event.requestSent r => some r
    | _ => none

/-- Modelled from the spec: success toast text of the create-restaurant
mutation, asserted verbatim by the test file. -/
def createSuccessMsg : String := "Restaurant created!"

/-- Modelled from the spec: error toast text of the create-restaurant
mutation; the test file (line 154) asserts the literal
"Unable to update restaurant". -/
def createErrorMsg : String := "Unable to update restaurant"

/-- Modelled from the spec: success toast text of the update-restaurant
mutation, asserted verbatim by the test file. -/
def updateSuccessMsg : String := "Restaurant Updated"

/-- Modelled from the spec: error toast text of the update-restaurant
mutation; the test file (line 194) asserts the literal
"Unable to update Restaurant". -/
def updateErrorMsg : String := "Unable to update Restaurant"

/-- Modelled from the spec: success toast text of the order-status mutation. -/
def orderSuccessMsg : String := "Order updated"

/-- Modelled from the spec: error toast text of the order-status mutation. -/
def orderErrorMsg : String := "Unable to update order"

/-- Modelled from the spec: the GET request built by `useGetMyRestaurant`
(§4.1, §6): fixed path `/api/my/restaurant` under the base URL, bearer
Authorization header, no body. -/
def getMyRestaurantRequest (env : Env) : Request :=
  { method := Method.GET
    url := env.baseUrl ++ "/api/my/restaurant"
    headers := [("Authorization", "Bearer " ++ env.token)]
    body := Body.empty }

/-- Modelled from the spec: the POST request built by `useCreateMyRestaurant`
(§4.2, §6): same path, bearer header, and the FormData instance passed in as
the body (identity, no re-serialization, no explicit content type). -/
def createMyRestaurantRequest (env : Env) (fd : Nat) : Request :=
  { method := Method.POST
    url := env.baseUrl ++ "/api/my/restaurant"
    headers := [("Authorization", "Bearer " ++ env.token)]
    body := Body.formData fd }

/-- Modelled from the spec: the PUT request built by `useUpdateMyRestaurant`
(§4.3, §6): same shape as create but method PUT. -/
def updateMyRestaurantRequest (env : Env) (fd : Nat) : Request :=
  { method := Method.PUT
    url := env.baseUrl ++ "/api/my/restaurant"
    headers := [("Authorization", "Bearer " ++ env.token)]
    body := Body.formData fd }

/-- Modelled from the spec: the GET request built by
`useGetMyOrdersForRestaurant` (§4.4, §6): fixed path
`/api/my/restaurant/order`, bearer header and JSON content-type header. -/
def getMyOrdersRequest (env : Env) : Request :=
  { method := Method.GET
    url := env.baseUrl ++ "/api/my/restaurant/order"
    headers := [("Authorization", "Bearer " ++ env.token),
                ("Content-Type", "application/json")]
    body := Body.empty }

/-- Modelled from the spec: `JSON.stringify` of the one-field object holding
only the (string-valued) order status. -/
def jsonStringifyStatus (status : String) : String :=
  "\x7b\"status\":\"" ++ status ++ "\"\x7d"

/-- Modelled from the spec: the PUT request built by
`useUpdateMyRestaurantOrder` (§4.5, §6): path parameterized by the order id
(`.../order/{orderId}/status`), bearer and JSON headers, and a JSON body
holding only the status. -/
def updateMyRestaurantOrderRequest (env : Env) (orderId status : String) :
    Request :=
  { method := Method.PUT
    url := env.baseUrl ++ "/api/my/restaurant/order/" ++ orderId ++ "/status"
    headers := [("Authorization", "Bearer " ++ env.token),
                ("Content-Type", "application/json")]
    body := Body.jsonString (jsonStringifyStatus status) }

/-- The observable outcome of one query-hook invocation once loading has
settled: the event trace, the exposed data field, the final loading flag, and
whether an error was thrown to the caller. -/
structure QueryRun (α : Type) where
  trace : List Event
  data : Option α
  isLoading : Bool
  thrown : Bool
  deriving DecidableEq, Repr

/-- The observable outcome of one mutation-hook invocation: the event trace,
the decoded result on success, and whether the awaited call rejected. -/
structure MutationRun (α : Type) where
  trace : List Event
  result : Option α
  rejected : Bool
  deriving DecidableEq, Repr

/-- Modelled from the spec: one settled invocation of `useGetMyRestaurant`
(§4.1, §7): token acquired, request sent, on success the decoded body exposed
as `restaurant`, on failure the data left undefined; loading resolves to
false, nothing is thrown, no toast is shown, the cache is unchanged. -/
def runGetMyRestaurant (env : Env) (c : Cache) (resp : Response α) :
    QueryRun α × Cache :=
  ({ trace := [Event.tokenAcquired env.token,
               Event.requestSent (getMyRestaurantRequest env)]
     data := if resp.ok then some resp.body else none
     isLoading := false
     thrown := false }, c)

/-- Modelled from the spec: one settled invocation of
`useGetMyOrdersForRestaurant` (§4.4, §7): same swallow-on-failure policy as
the restaurant query. -/
def runGetMyOrdersForRestaurant (env : Env) (c : Cache) (resp : Response α) :
    QueryRun α × Cache :=
  ({ trace := [Event.tokenAcquired env.token,
               Event.requestSent (getMyOrdersRequest env)]
     data := if resp.ok then some resp.body else none
     isLoading := false
     thrown := false }, c)

/-- Modelled from the spec: one settled invocation of `useCreateMyRestaurant`
(§4.2, §7): on success a fixed success toast and invalidation of the
restaurant cache entry; on failure an error toast, no rethrow to the caller,
cache untouched. -/
def runCreateMyRestaurant (env : Env) (c : Cache) (fd : Nat)
    (resp : Response α) : MutationRun α × Cache :=
  if resp.ok then
    ({ trace := [Event.tokenAcquired env.token,
                 Event.requestSent (createMyRestaurantRequest env fd),
                 Event.toastSuccess createSuccessMsg]
       result := some resp.body
       rejected := false }, c.erase myRestaurantKey)
  else
    ({ trace := [Event.tokenAcquired env.token,
                 Event.requestSent (createMyRestaurantRequest env fd),
                 Event.toastError createErrorMsg]
       result := none
       rejected := false }, c)

/-- Modelled from the spec: one settled invocation of `useUpdateMyRestaurant`
(§4.3, §7): same shape as create, with PUT and update-specific toasts. -/
def runUpdateMyRestaurant (env : Env) (c : Cache) (fd : Nat)
    (resp : Response α) : MutationRun α × Cache :=
  if resp.ok then
    ({ trace := [Event.tokenAcquired env.token,
                 Event.requestSent (updateMyRestaurantRequest env fd),
                 Event.toastSuccess updateSuccessMsg]
       result := some resp.body
       rejected := false }, c.erase myRestaurantKey)
  else
    ({ trace := [Event.tokenAcquired env.token,
                 Event.requestSent (updateMyRestaurantRequest env fd),
                 Event.toastError updateErrorMsg]
       result := none
       rejected := false }, c)

/-- Modelled from the spec: one settled invocation of
`useUpdateMyRestaurantOrder` (§4.5, §7): on success a fixed success toast and
the call resolves; on failure an error toast is shown AND the failure is
re-raised, so the awaited call rejects. -/
def runUpdateMyRestaurantOrder (env : Env) (c : Cache)
    (orderId status : String) (resp : Response α) : MutationRun α × Cache :=
  if resp.ok then
    ({ trace := [Event.tokenAcquired env.token,
                 Event.requestSent
                   (updateMyRestaurantOrderRequest env orderId status),
                 Event.toastSuccess orderSuccessMsg]
       result := some resp.body
       rejected := false }, c)
  else
    ({ trace := [Event.tokenAcquired env.token,
                 Event.requestSent
                   (updateMyRestaurantOrderRequest env orderId status),
                 Event.toastError orderErrorMsg]
       result := none
       rejected := true }, c)

/-- Scan a trace: returns true when every request-sent event is preceded by
some token-acquired event; the Bool argument records whether a token has been
acquired so far. -/
def tokenSeenBefore : Bool → List Event → Bool
  | _, [] => true
  | _, Event.tokenAcquired _ :: rest => tokenSeenBefore true rest
  | seen, Event.requestSent _ :: rest => seen && tokenSeenBefore seen rest
  | seen, _ :: rest => tokenSeenBefore seen rest

/-- Every request-sent event of the trace is preceded by a token acquisition. -/
def tokenBeforeRequests (t : List Event) : Bool := tokenSeenBefore false t

/-- The environment used by the test suite: stubbed base URL and the token
the mocked provider resolves to. -/
def testEnv : Env := { baseUrl := "http://api.test", token := "test-access-token" }

end MyRestaurantApi

namespace DetailsSectionModel

/-- The form context supplied externally (react-hook-form's `useFormContext`):
current field values and per-field validation messages, both keyed by field
name. -/
structure FormCtx where
  value : String → String
  error : String → Option String

/-- One rendered form field of the details section: the bound field name, the
visible label, the bound value and the rendered validation message. -/
structure FieldView where
  name : String
  label : String
  value : String
  message : Option String
  deriving DecidableEq, Repr

/-- The list of form fields rendered by `DetailsSection`
(src/forms/user-profile-form/manage-restaurant-form/DetailsSection.tsx): each
`FormField` binds a name to the external `control`, renders the bound value
in an `Input` and the context's validation message in `FormMessage`. -/
def detailsSectionFields (ctx : FormCtx) : List FieldView :=
  [ { name := "restaurantName", label := "Name",
      value := ctx.value "restaurantName", message := ctx.error "restaurantName" },
    { name := "city", label := "City",
      value := ctx.value "city", message := ctx.error "city" },
    { name := "state", label := "State",
      value := ctx.value "state", message := ctx.error "state" },
    { name := "country", label := "Country",
      value := ctx.value "country", message := ctx.error "country" },
    { name := "deliveryPrice", label := "Delivery Price(₹)",
      value := ctx.value "deliveryPrice", message := ctx.error "deliveryPrice" },
    { name := "deliveryTime", label := "Estimated Delivery Time(minutes)",
      value := ctx.value "deliveryTime", message := ctx.error "deliveryTime" } ]

/-- A trivial form context: empty values, no validation errors. -/
def trivialCtx : FormCtx := { value := fun _ => "", error := fun _ => none }

end DetailsSectionModel

namespace MyRestaurantApi

/-- Claim C1: for every successful response, `useGetMyRestaurant` exposes
exactly the decoded JSON body as `restaurant`, the invocation sends exactly
the modelled GET request, and that request's Authorization header is exactly
"Bearer " followed by the token returned by the token provider. -/
theorem getMyRestaurant_success_contract (env : Env) (c : Cache)
    {α : Type} (resp : Response α) (hok : resp.ok = true) :
    (runGetMyRestaurant env c resp).1.data = some resp.body ∧
    requestsOf (runGetMyRestaurant env c resp).1.trace
      = [getMyRestaurantRequest env] ∧
    headerValue (getMyRestaurantRequest env) "Authorization"
      = some ("Bearer " ++ env.token) := by
  refine ⟨?_, ?_, ?_⟩
  · simp [runGetMyRestaurant, hok]
  · rfl
  · rfl

/-- Witness for C1 at the test suite's concrete environment and response. -/
theorem getMyRestaurant_success_contract_witness :
    (⟨true, 7⟩ : Response Nat).ok = true ∧
    (runGetMyRestaurant testEnv [] (⟨true, 7⟩ : Response Nat)).1.data
      = some 7 :=
  ⟨rfl, (getMyRestaurant_success_contract testEnv []
    (⟨true, 7⟩ : Response Nat) rfl).1⟩

/-- Claim C4: for every non-success response, both query hooks expose their
data field as undefined, resolve the loading flag to false, throw nothing to
the caller, and show no toast. -/
theorem queryHooks_failure_contract (env : Env) (c : Cache)
    {α : Type} (resp : Response α) (hok : resp.ok = false) :
    ((runGetMyRestaurant env c resp).1.data = none ∧
     (runGetMyRestaurant env c resp).1.isLoading = false ∧
     (runGetMyRestaurant env c resp).1.thrown = false ∧
     toastEvents (runGetMyRestaurant env c resp).1.trace = []) ∧
    ((runGetMyOrdersForRestaurant env c resp).1.data = none ∧
     (runGetMyOrdersForRestaurant env c resp).1.isLoading = false ∧
     (runGetMyOrdersForRestaurant env c resp).1.thrown = false ∧
     toastEvents (runGetMyOrdersForRestaurant env c resp).1.trace = []) := by
  refine ⟨⟨?_, rfl, rfl, rfl⟩, ⟨?_, rfl, rfl, rfl⟩⟩
  · simp [runGetMyRestaurant, hok]
  · simp [runGetMyOrdersForRestaurant, hok]

/-- Witness for C4 at the test suite's concrete environment and a failing
response. -/
theorem queryHooks_failure_contract_witness :
    (⟨false, 0⟩ : Response Nat).ok = false ∧
    (runGetMyRestaurant testEnv [] (⟨false, 0⟩ : Response Nat)).1.data
      = none :=
  ⟨rfl, (queryHooks_failure_contract testEnv []
    (⟨false, 0⟩ : Response Nat) rfl).1.1⟩

/-- Claim C5: for every successful create or update mutation, the outgoing
request body is the very FormData instance passed in (by identity), and the
fixed success toast is "Restaurant created!" for create and
"Restaurant Updated" for update, shown exactly once. -/
theorem createUpdate_success_contract (env : Env) (c : Cache) (fd : Nat)
    {α : Type} (resp : Response α) (hok : resp.ok = true) :
    (createMyRestaurantRequest env fd).body = Body.formData fd ∧
    (updateMyRestaurantRequest env fd).body = Body.formData fd ∧
    toastEvents (runCreateMyRestaurant env c fd resp).1.trace
      = [Event.toastSuccess "Restaurant created!"] ∧
    toastEvents (runUpdateMyRestaurant env c fd resp).1.trace
      = [Event.toastSuccess "Restaurant Updated"] := by
  refine ⟨rfl, rfl, ?_, ?_⟩
  · simp [runCreateMyRestaurant, hok, toastEvents, createSuccessMsg]
  · simp [runUpdateMyRestaurant, hok, toastEvents, updateSuccessMsg]

/-- Witness for C5 at the test suite's concrete environment, a concrete
FormData instance and a successful response. -/
theorem createUpdate_success_contract_witness :
    (⟨true, 2⟩ : Response Nat).ok = true ∧
    (createMyRestaurantRequest testEnv 5).body = Body.formData 5 :=
  ⟨rfl, (createUpdate_success_contract testEnv [] 5
    (⟨true, 2⟩ : Response Nat) rfl).1⟩

end MyRestaurantApi

namespace MyRestaurantApi

/-- Claim C2 counterexample: at the test suite's environment and a failing
response, the create-failure toast text is "Unable to update restaurant"
while the update-failure toast text is "Unable to update Restaurant"; the two
strings differ (in the capitalization of "restaurant"), so the create-failure
message does NOT equal the update-failure message as the claim states. -/
theorem createErrorMessage_counterexample :
    toastEvents (runCreateMyRestaurant testEnv [] 0
        (⟨false, 0⟩ : Response Nat)).1.trace
      = [Event.toastError "Unable to update restaurant"] ∧
    toastEvents (runUpdateMyRestaurant testEnv [] 0
        (⟨false, 0⟩ : Response Nat)).1.trace
      = [Event.toastError "Unable to update Restaurant"] ∧
    createErrorMsg ≠ updateErrorMsg := by
  refine ⟨rfl, rfl, ?_⟩
  decide

/-- Claim C2 amended: for every failed create-restaurant call the error toast
shown is exactly the literal "Unable to update restaurant" (update-style
wording), shown exactly once; it differs from the update hook's own failure
text "Unable to update Restaurant" only in the capitalization of
"restaurant", so the two message strings are not equal. -/
theorem createFailure_toast_amended (env : Env) (c : Cache) (fd : Nat)
    {α : Type} (resp : Response α) (hok : resp.ok = false) :
    toastEvents (runCreateMyRestaurant env c fd resp).1.trace
      = [Event.toastError "Unable to update restaurant"] ∧
    toastEvents (runUpdateMyRestaurant env c fd resp).1.trace
      = [Event.toastError "Unable to update Restaurant"] ∧
    createErrorMsg ≠ updateErrorMsg := by
  refine ⟨?_, ?_, by decide⟩
  · simp [runCreateMyRestaurant, hok, toastEvents, createErrorMsg]
  · simp [runUpdateMyRestaurant, hok, toastEvents, updateErrorMsg]

/-- Witness for the amended C2 at a concrete failing invocation. -/
theorem createFailure_toast_amended_witness :
    (⟨false, 0⟩ : Response Nat).ok = false ∧
    toastEvents (runCreateMyRestaurant testEnv ["k"] 3
        (⟨false, 0⟩ : Response Nat)).1.trace
      = [Event.toastError "Unable to update restaurant"] :=
  ⟨rfl, (createFailure_toast_amended testEnv ["k"] 3
    (⟨false, 0⟩ : Response Nat) rfl).1⟩

/-- Claim C3: for every failed order-status update, the awaited call rejects
(the failure is re-raised to the caller, unlike the query hooks, which throw
nothing) and the error toast "Unable to update order" is shown exactly once. -/
theorem orderUpdate_failure_contract (env : Env) (c : Cache)
    (orderId status : String) {α : Type} (resp : Response α)
    (hok : resp.ok = false) :
    (runUpdateMyRestaurantOrder env c orderId status resp).1.rejected = true ∧
    toastEvents (runUpdateMyRestaurantOrder env c orderId status resp).1.trace
      = [Event.toastError "Unable to update order"] ∧
    (runGetMyRestaurant env c resp).1.thrown = false ∧
    (runGetMyOrdersForRestaurant env c resp).1.thrown = false := by
  refine ⟨?_, ?_, rfl, rfl⟩
  · simp [runUpdateMyRestaurantOrder, hok]
  · simp [runUpdateMyRestaurantOrder, hok, toastEvents, orderErrorMsg]

/-- Witness for C3 at the test suite's failing order-status update
(orderId "o1", status "cancelled"). -/
theorem orderUpdate_failure_contract_witness :
    (⟨false, 0⟩ : Response Nat).ok = false ∧
    (runUpdateMyRestaurantOrder testEnv [] "o1" "cancelled"
        (⟨false, 0⟩ : Response Nat)).1.rejected = true :=
  ⟨rfl, (orderUpdate_failure_contract testEnv [] "o1" "cancelled"
    (⟨false, 0⟩ : Response Nat) rfl).1⟩

/-- Claim C6: for every successful order-status update with input
(orderId, status), the request body equals JSON.stringify of the one-field
status object, the body does not depend on the orderId at all (the orderId
appears only in the URL `.../order/orderId/status`), the success toast
"Order updated" is shown exactly once, and the awaited call resolves. -/
theorem orderUpdate_success_contract (env : Env) (c : Cache)
    (orderId status : String) {α : Type} (resp : Response α)
    (hok : resp.ok = true) :
    (updateMyRestaurantOrderRequest env orderId status).body
      = Body.jsonString (jsonStringifyStatus status) ∧
    (∀ o₁ o₂ : String,
      (updateMyRestaurantOrderRequest env o₁ status).body
        = (updateMyRestaurantOrderRequest env o₂ status).body) ∧
    (updateMyRestaurantOrderRequest env orderId status).url
      = env.baseUrl ++ "/api/my/restaurant/order/" ++ orderId ++ "/status" ∧
    toastEvents (runUpdateMyRestaurantOrder env c orderId status resp).1.trace
      = [Event.toastSuccess "Order updated"] ∧
    (runUpdateMyRestaurantOrder env c orderId status resp).1.rejected
      = false := by
  refine ⟨rfl, fun o₁ o₂ => rfl, rfl, ?_, ?_⟩
  · simp [runUpdateMyRestaurantOrder, hok, toastEvents, orderSuccessMsg]
  · simp [runUpdateMyRestaurantOrder, hok]

/-- Witness for C6 at the test suite's successful order-status update
(orderId "o1", status "paid"). -/
theorem orderUpdate_success_contract_witness :
    (⟨true, 1⟩ : Response Nat).ok = true ∧
    (updateMyRestaurantOrderRequest testEnv "o1" "paid").url
      = "http://api.test/api/my/restaurant/order/o1/status" :=
  ⟨rfl, (orderUpdate_success_contract testEnv [] "o1" "paid"
    (⟨true, 1⟩ : Response Nat) rfl).2.2.1⟩

end MyRestaurantApi

namespace MyRestaurantApi

/-- Claim C7: every invocation of `useGetMyOrdersForRestaurant` sends exactly
one request: a GET to the fixed path /api/my/restaurant/order under the
configured base URL, carrying both an Authorization bearer header and a JSON
Content-Type header; on success the exposed `orders` equals the decoded JSON
body. -/
theorem getOrders_contract (env : Env) (c : Cache) {α : Type}
    (resp : Response α) :
    (getMyOrdersRequest env).method = Method.GET ∧
    (getMyOrdersRequest env).url = env.baseUrl ++ "/api/my/restaurant/order" ∧
    headerValue (getMyOrdersRequest env) "Authorization"
      = some ("Bearer " ++ env.token) ∧
    headerValue (getMyOrdersRequest env) "Content-Type"
      = some "application/json" ∧
    requestsOf (runGetMyOrdersForRestaurant env c resp).1.trace
      = [getMyOrdersRequest env] ∧
    (resp.ok = true →
      (runGetMyOrdersForRestaurant env c resp).1.data = some resp.body) := by
  refine ⟨rfl, rfl, rfl, rfl, rfl, fun hok => ?_⟩
  simp [runGetMyOrdersForRestaurant, hok]

/-- Witness for C7 at the test suite's environment and a successful
response. -/
theorem getOrders_contract_witness :
    (⟨true, 9⟩ : Response Nat).ok = true ∧
    (runGetMyOrdersForRestaurant testEnv [] (⟨true, 9⟩ : Response Nat)).1.data
      = some 9 :=
  ⟨rfl, (getOrders_contract testEnv [] (⟨true, 9⟩ : Response Nat)).2.2.2.2.2
    rfl⟩

/-- Claim C8: within every single invocation of any of the five hooks, every
request-sent event of the trace is preceded by a token-acquisition event (the
token fetch completes before the network request is issued), for every
environment, cache state, input and response. -/
theorem tokenBeforeRequest_all_hooks (env : Env) (c : Cache) (fd : Nat)
    (orderId status : String) {α : Type} (resp : Response α) :
    tokenBeforeRequests (runGetMyRestaurant env c resp).1.trace = true ∧
    tokenBeforeRequests (runGetMyOrdersForRestaurant env c resp).1.trace
      = true ∧
    tokenBeforeRequests (runCreateMyRestaurant env c fd resp).1.trace = true ∧
    tokenBeforeRequests (runUpdateMyRestaurant env c fd resp).1.trace = true ∧
    tokenBeforeRequests
      (runUpdateMyRestaurantOrder env c orderId status resp).1.trace
      = true := by
  obtain ⟨ok, body⟩ := resp
  refine ⟨rfl, rfl, ?_, ?_, ?_⟩ <;> cases ok <;> rfl

/-- Claim C10: the outgoing requests of a hook invocation are a function of
the environment (base URL and token) and the hook input only: two runs of the
same hook with the same environment and input, but arbitrary different cache
states and different responses, send identical request lists (same URL,
method, headers and body), for all five hooks. -/
theorem requestConstruction_deterministic (env : Env) (c₁ c₂ : Cache)
    (fd : Nat) (orderId status : String) {α : Type} (r₁ r₂ : Response α) :
    requestsOf (runGetMyRestaurant env c₁ r₁).1.trace
      = requestsOf (runGetMyRestaurant env c₂ r₂).1.trace ∧
    requestsOf (runGetMyOrdersForRestaurant env c₁ r₁).1.trace
      = requestsOf (runGetMyOrdersForRestaurant env c₂ r₂).1.trace ∧
    requestsOf (runCreateMyRestaurant env c₁ fd r₁).1.trace
      = requestsOf (runCreateMyRestaurant env c₂ fd r₂).1.trace ∧
    requestsOf (runUpdateMyRestaurant env c₁ fd r₁).1.trace
      = requestsOf (runUpdateMyRestaurant env c₂ fd r₂).1.trace ∧
    requestsOf (runUpdateMyRestaurantOrder env c₁ orderId status r₁).1.trace
      = requestsOf
          (runUpdateMyRestaurantOrder env c₂ orderId status r₂).1.trace := by
  obtain ⟨ok₁, b₁⟩ := r₁
  obtain ⟨ok₂, b₂⟩ := r₂
  refine ⟨rfl, rfl, ?_, ?_, ?_⟩ <;> cases ok₁ <;> cases ok₂ <;> rfl

end MyRestaurantApi

namespace DetailsSectionModel

/-- Claim C9: the details section binds exactly the fields restaurantName
(label Name), city, state, country, deliveryPrice (label Delivery Price) and
deliveryTime (label Estimated Delivery Time), in that order; every rendered
field takes its value and its validation message from the externally supplied
form context at its own field name (nothing is computed locally); and the
rendered output depends on nothing but that context: two contexts agreeing on
values and errors render identically (no hidden state, no side effects). -/
theorem detailsSection_contract (ctx : FormCtx) :
    (detailsSectionFields ctx).map FieldView.name
      = ["restaurantName", "city", "state", "country", "deliveryPrice",
         "deliveryTime"] ∧
    (∀ fv ∈ detailsSectionFields ctx,
      fv.message = ctx.error fv.name ∧ fv.value = ctx.value fv.name) ∧
    (∀ ctx₂ : FormCtx, (∀ n, ctx.value n = ctx₂.value n) →
      (∀ n, ctx.error n = ctx₂.error n) →
      detailsSectionFields ctx = detailsSectionFields ctx₂) := by
  refine ⟨rfl, ?_, ?_⟩
  · intro fv hmem
    simp only [detailsSectionFields, List.mem_cons, List.not_mem_nil,
      or_false] at hmem
    rcases hmem with h | h | h | h | h | h <;> subst h <;> exact ⟨rfl, rfl⟩
  · intro ctx₂ hval herr
    simp [detailsSectionFields, hval, herr]

/-- Witness for C9 at the trivial context: the bound-name list is concrete,
the first rendered field takes its message from the context, and the purity
clause holds with the context compared against itself. -/
theorem detailsSection_contract_witness :
    (detailsSectionFields trivialCtx).map FieldView.name
      = ["restaurantName", "city", "state", "country", "deliveryPrice",
         "deliveryTime"] ∧
    (⟨"restaurantName", "Name", "", none⟩ : FieldView)
      ∈ detailsSectionFields trivialCtx ∧
    (⟨"restaurantName", "Name", "", none⟩ : FieldView).message
      = trivialCtx.error "restaurantName" ∧
    detailsSectionFields trivialCtx = detailsSectionFields trivialCtx :=
  ⟨(detailsSection_contract trivialCtx).1,
   List.mem_cons_self _ _,
   ((detailsSection_contract trivialCtx).2.1
     ⟨"restaurantName", "Name", "", none⟩ (List.mem_cons_self _ _)).1,
   (detailsSection_contract trivialCtx).2.2 trivialCtx (fun _ => rfl)
     (fun _ => rfl)⟩

end DetailsSectionModel
